import Mathlib

set_option maxRecDepth 100000

/-
Verification of src/locustfile.py, a locust load-test script.

The script defines a single user class, MigrationUser, with
  wait_time = between(1, 2)
and one task, run_migration, which builds a fixed four-field payload
dictionary, serializes it with json.dumps, and POSTs it to
"/api/migration" with a Content-Type: application/json header,
ignoring the response.

The embedding below models:
  - json.dumps (Python standard library, default arguments:
    ensure_ascii=True, separators defaulting to ", " and ": ",
    sort_keys=False) on dictionaries with string keys and string values,
    represented as insertion-ordered association lists;
  - a standard JSON parser (json.loads restricted to objects whose
    values are strings, per RFC 8259: whitespace, escape sequences
    including unicode escapes and surrogate pairs, control characters
    rejected inside strings);
  - locust.between, which is
    lambda instance: min_wait + random.random() * (max_wait - min_wait),
    modelled over the rationals with the random.random() sample as an
    explicit argument in [0, 1];
  - the HTTP exchange: run_migration takes the environment as a
    function from the request to the response (the response is bound
    and discarded, exactly as the Python code discards the return value
    of self.client.post), and returns the unchanged user state together
    with the trace of requests issued.
-/

/-- An HTTP request as issued by the locust HTTP client: method, path
relative to the configured host, headers, and body. -/
structure HttpRequest where
  method : String
  path : String
  headers : List (String × String)
  body : String
  deriving DecidableEq, Repr

/-- An HTTP response as seen by the locust HTTP client. -/
structure HttpResponse where
  status : Nat
  body : String
  deriving DecidableEq, Repr

/-- A network-level failure (connection error, timeout, ...) raised by
the HTTP client. -/
inductive NetworkFailure where
  | connectionError : String → NetworkFailure
  | timeout : NetworkFailure
  deriving DecidableEq, Repr

/-- Lowercase hexadecimal digit, as used by Python json \uXXXX escapes. -/
def json.hexDigit (n : Nat) : Char :=
  if n < 10 then Char.ofNat (48 + n) else Char.ofNat (87 + n)

/-- Four lowercase hexadecimal digits, as in Python json \uXXXX escapes. -/
def json.hex4 (n : Nat) : String :=
  String.mk [json.hexDigit (n / 4096 % 16), json.hexDigit (n / 256 % 16),
             json.hexDigit (n / 16 % 16), json.hexDigit (n % 16)]

/-- Escape of one character in Python json.dumps with ensure_ascii=True:
backslash, double quote and the short escapes are written with a
backslash, printable ASCII is kept, and everything else becomes \uXXXX
(a surrogate pair above the BMP). -/
def json.escapeChar (c : Char) : String :=
  if c.toNat = 92 then String.mk [Char.ofNat 92, Char.ofNat 92]
  else if c.toNat = 34 then String.mk [Char.ofNat 92, Char.ofNat 34]
  else if c.toNat = 8 then String.mk [Char.ofNat 92, Char.ofNat 98]
  else if c.toNat = 9 then String.mk [Char.ofNat 92, Char.ofNat 116]
  else if c.toNat = 10 then String.mk [Char.ofNat 92, Char.ofNat 110]
  else if c.toNat = 12 then String.mk [Char.ofNat 92, Char.ofNat 102]
  else if c.toNat = 13 then String.mk [Char.ofNat 92, Char.ofNat 114]
  else if 32 ≤ c.toNat ∧ c.toNat ≤ 126 then String.mk [c]
  else if c.toNat < 65536 then String.mk [Char.ofNat 92, Char.ofNat 117] ++ json.hex4 c.toNat
  else
    let n := c.toNat - 65536
    String.mk [Char.ofNat 92, Char.ofNat 117] ++ json.hex4 (55296 + n / 1024) ++
    String.mk [Char.ofNat 92, Char.ofNat 117] ++ json.hex4 (56320 + n % 1024)

/-- Python json encoding of a string: the escaped characters wrapped in
double quotes. -/
def json.encodeString (s : String) : String :=
  String.mk [Char.ofNat 34] ++ String.join (s.toList.map json.escapeChar) ++
    String.mk [Char.ofNat 34]

/-- Python json.dumps with default arguments on a dict with string keys
and string values, the dict given as its insertion-ordered association
list.  The default item separator is a comma followed by a space and the
default key separator is a colon followed by a space; keys are not
sorted. -/
def json.dumps (obj : List (String × String)) : String :=
  String.mk [Char.ofNat 123] ++
    String.intercalate ", "
      (obj.map fun kv => json.encodeString kv.1 ++ ": " ++ json.encodeString kv.2) ++
    String.mk [Char.ofNat 125]

/-- locust.wait_time.between: returns a callable sampling
min_wait + random.random() * (max_wait - min_wait).  The sample drawn
from random.random(), a uniform value in [0, 1], is the explicit
argument. -/
def between (min_wait max_wait : ℚ) : ℚ → ℚ :=
  fun r => min_wait + r * (max_wait - min_wait)

/-- The per-user state of a MigrationUser: the framework-configured
base host.  The script defines no fields of its own and never adds
any. -/
structure MigrationUser where
  host : String
  deriving DecidableEq, Repr

/-- MigrationUser.wait_time = between(1, 2). -/
def MigrationUser.wait_time : ℚ → ℚ :=
  between 1 2

/-- The task body of MigrationUser.run_migration: builds the payload
dict fresh, serializes it with json.dumps, and POSTs it to
"/api/migration" with a Content-Type: application/json header.  The
response returned by the client is bound and discarded, exactly as the
Python code discards the return value of self.client.post.  The result
is the unchanged user state and the trace of requests issued. -/
def MigrationUser.run_migration (self : MigrationUser)
    (respond : HttpRequest → HttpResponse) :
    MigrationUser × List HttpRequest :=
  let payload : List (String × String) :=
    [("input", "CSV"),
     ("output", "CSV"),
     ("csv_source_file_name", "sample.csv"),
     ("csv_destination_file_name", "destination_file.csv")]
  let req : HttpRequest :=
    { method := "POST"
      path := "/api/migration"
      headers := [("Content-Type", "application/json")]
      body := json.dumps payload }
  let _response := respond req
  (self, [req])

/-- MigrationUser.run_migration when the HTTP client may raise: the
request is issued, and since the task body contains no try/except, a
raised failure propagates unchanged; on success the response is
discarded as before. -/
def MigrationUser.run_migration_exc (self : MigrationUser)
    (respond : HttpRequest → Except NetworkFailure HttpResponse) :
    Except NetworkFailure (MigrationUser × List HttpRequest) :=
  let payload : List (String × String) :=
    [("input", "CSV"),
     ("output", "CSV"),
     ("csv_source_file_name", "sample.csv"),
     ("csv_destination_file_name", "destination_file.csv")]
  let req : HttpRequest :=
    { method := "POST"
      path := "/api/migration"
      headers := [("Content-Type", "application/json")]
      body := json.dumps payload }
  match respond req with
  | Except.error e => Except.error e
  | Except.ok _response => Except.ok (self, [req])

/-- The single request run_migration issues, written out for theorem
statements. -/
def MigrationUser.migrationRequest : HttpRequest :=
  { method := "POST"
    path := "/api/migration"
    headers := [("Content-Type", "application/json")]
    body := json.dumps
      [("input", "CSV"),
       ("output", "CSV"),
       ("csv_source_file_name", "sample.csv"),
       ("csv_destination_file_name", "destination_file.csv")] }

/-- N sequential invocations of run_migration by one user, the state
threaded from one invocation to the next and the response to each
invocation allowed to differ (respond takes the invocation index). -/
def MigrationUser.runN (self : MigrationUser)
    (respond : Nat → HttpRequest → HttpResponse) :
    Nat → MigrationUser × List HttpRequest
  | 0 => (self, [])
  | n + 1 =>
    let prev := MigrationUser.runN self respond n
    let step := MigrationUser.run_migration prev.1 (respond n)
    (step.1, prev.2 ++ step.2)

/-- Skip JSON whitespace (space, tab, line feed, carriage return). -/
def json.skipWs : List Char → List Char
  | [] => []
  | c :: rest =>
    if c.toNat = 32 ∨ c.toNat = 9 ∨ c.toNat = 10 ∨ c.toNat = 13 then json.skipWs rest
    else c :: rest

/-- Value of one hexadecimal digit, upper or lower case. -/
def json.hexVal (c : Char) : Option Nat :=
  if 48 ≤ c.toNat ∧ c.toNat ≤ 57 then some (c.toNat - 48)
  else if 97 ≤ c.toNat ∧ c.toNat ≤ 102 then some (c.toNat - 87)
  else if 65 ≤ c.toNat ∧ c.toNat ≤ 70 then some (c.toNat - 55)
  else none

/-- Read four hexadecimal digits, as after \u in a JSON string. -/
def json.hex4Val : List Char → Option (Nat × List Char)
  | a :: b :: c :: d :: rest => do
    let x ← json.hexVal a
    let y ← json.hexVal b
    let z ← json.hexVal c
    let w ← json.hexVal d
    pure (((x * 16 + y) * 16 + z) * 16 + w, rest)
  | _ => none

/-- Parse the body of a JSON string after its opening quote, up to and
including the closing quote: escape sequences are decoded, a high
surrogate escape must be followed by a low surrogate escape (together
decoding one character above the BMP), and unescaped control characters
are rejected, as in a strict standard parser.  Fuel bounds recursion. -/
def json.stringBody : Nat → List Char → Option (List Char × List Char)
  | 0, _ => none
  | _ + 1, [] => none
  | fuel + 1, c :: rest =>
    if c.toNat = 34 then some ([], rest)
    else if c.toNat = 92 then
      match rest with
      | [] => none
      | e :: rest2 =>
        if e.toNat = 117 then
          match json.hex4Val rest2 with
          | none => none
          | some (n, rest3) =>
            if 55296 ≤ n ∧ n ≤ 56319 then
              match rest3 with
              | b1 :: b2 :: rest4 =>
                if b1.toNat = 92 ∧ b2.toNat = 117 then
                  match json.hex4Val rest4 with
                  | none => none
                  | some (m, rest5) =>
                    if 56320 ≤ m ∧ m ≤ 57343 then
                      (json.stringBody fuel rest5).map fun p =>
                        (Char.ofNat (65536 + (n - 55296) * 1024 + (m - 56320)) :: p.1, p.2)
                    else none
                else none
              | _ => none
            else if 56320 ≤ n ∧ n ≤ 57343 then none
            else (json.stringBody fuel rest3).map fun p => (Char.ofNat n :: p.1, p.2)
        else
          let dec : Option Nat :=
            if e.toNat = 34 then some 34
            else if e.toNat = 92 then some 92
            else if e.toNat = 47 then some 47
            else if e.toNat = 98 then some 8
            else if e.toNat = 102 then some 12
            else if e.toNat = 110 then some 10
            else if e.toNat = 114 then some 13
            else if e.toNat = 116 then some 9
            else none
          match dec with
          | some d => (json.stringBody fuel rest2).map fun p => (Char.ofNat d :: p.1, p.2)
          | none => none
    else if c.toNat < 32 then none
    else (json.stringBody fuel rest).map fun p => (c :: p.1, p.2)

/-- Parse one "key": "value" member of a JSON object (both key and
value strings), leading whitespace allowed before the key, the colon
and the value. -/
def json.member (fuel : Nat) (cs : List Char) :
    Option ((String × String) × List Char) :=
  match json.skipWs cs with
  | [] => none
  | c :: rest =>
    if c.toNat = 34 then
      match json.stringBody fuel rest with
      | none => none
      | some (k, rest2) =>
        match json.skipWs rest2 with
        | [] => none
        | c2 :: rest3 =>
          if c2.toNat = 58 then
            match json.skipWs rest3 with
            | [] => none
            | c3 :: rest4 =>
              if c3.toNat = 34 then
                (json.stringBody fuel rest4).map fun p =>
                  ((String.mk k, String.mk p.1), p.2)
              else none
          else none
    else none

/-- Parse a non-empty comma-separated member list followed by the
closing brace of the object. -/
def json.members : Nat → List Char → Option (List (String × String) × List Char)
  | 0, _ => none
  | fuel + 1, cs =>
    match json.member (fuel + 1) cs with
    | none => none
    | some (kv, rest) =>
      match json.skipWs rest with
      | [] => none
      | c :: rest2 =>
        if c.toNat = 44 then
          (json.members fuel rest2).map fun p => (kv :: p.1, p.2)
        else if c.toNat = 125 then some ([kv], rest2)
        else none

/-- A standard JSON parser restricted to a single object whose values
are strings (the shape of every body this script produces): parses the
whole input, returning the members as an insertion-ordered association
list, or none if the input is not such a JSON document. -/
def json.loads (s : String) : Option (List (String × String)) :=
  let fuel := s.length + 1
  match json.skipWs s.toList with
  | [] => none
  | c :: rest =>
    if c.toNat = 123 then
      match json.skipWs rest with
      | [] => none
      | c2 :: rest2 =>
        if c2.toNat = 125 then
          if json.skipWs rest2 = [] then some [] else none
        else
          match json.members fuel (c2 :: rest2) with
          | none => none
          | some (kvs, rem) =>
            if json.skipWs rem = [] then some kvs else none
    else none

/-- One invocation of run_migration returns the unchanged state and the
one-element trace holding migrationRequest. -/
theorem MigrationUser.run_migration_eq (self : MigrationUser)
    (respond : HttpRequest → HttpResponse) :
    MigrationUser.run_migration self respond = (self, [MigrationUser.migrationRequest]) :=
  rfl

/-- The user configured with the base URL of the scenario in §8. -/
def localhostUser : MigrationUser :=
  { host := "http://localhost:8080" }

/-- A server that answers every request with 200 and an empty body. -/
def okResponder : HttpRequest → HttpResponse :=
  fun _ => { status := 200, body := "" }

/-- Claim C1 as stated is false: the body run_migration sends is not the
byte-identical compact JSON string of the claim.  json.dumps with
default arguments puts a space after every colon and comma, so at the
concrete state and responder below the issued body differs from the
claimed bytes. -/
theorem run_migration_body_not_compact :
    ((MigrationUser.run_migration localhostUser okResponder).2.map HttpRequest.body) ≠
      ["\x7b\"input\":\"CSV\",\"output\":\"CSV\",\"csv_source_file_name\":\"sample.csv\",\"csv_destination_file_name\":\"destination_file.csv\"\x7d"] := by
  decide

/-- Claim C1, amended: for every invocation of run_migration, the
serialized request body is the byte-identical JSON string with exactly
the four fields input, output, csv_source_file_name and
csv_destination_file_name and their fixed values, serialized with the
json.dumps default separators, i.e. with a single space after each
colon and each comma, and no other bytes. -/
theorem run_migration_body_bytes (self : MigrationUser)
    (respond : HttpRequest → HttpResponse) :
    ((MigrationUser.run_migration self respond).2.map HttpRequest.body) =
      ["\x7b\"input\": \"CSV\", \"output\": \"CSV\", \"csv_source_file_name\": \"sample.csv\", \"csv_destination_file_name\": \"destination_file.csv\"\x7d"] :=
  rfl

/-- Claim C2: for every invocation of run_migration, the request issued
uses method POST and path exactly "/api/migration". -/
theorem run_migration_method_path (self : MigrationUser)
    (respond : HttpRequest → HttpResponse) :
    ((MigrationUser.run_migration self respond).2.map HttpRequest.method) = ["POST"] ∧
    ((MigrationUser.run_migration self respond).2.map HttpRequest.path) = ["/api/migration"] :=
  ⟨rfl, rfl⟩

/-- Claim C3: for every invocation of run_migration, the request issued
carries exactly the header Content-Type with value exactly
"application/json". -/
theorem run_migration_content_type (self : MigrationUser)
    (respond : HttpRequest → HttpResponse) :
    ((MigrationUser.run_migration self respond).2.map HttpRequest.headers) =
      [[("Content-Type", "application/json")]] :=
  rfl

/-- Claim C4: invoking run_migration N times in sequence produces a
trace of N structurally identical requests, the same method, path,
headers and body every time, even when the responses differ from one
invocation to the next. -/
theorem runN_requests_identical (self : MigrationUser)
    (respond : Nat → HttpRequest → HttpResponse) (n : Nat) :
    (MigrationUser.runN self respond n).2 =
      List.replicate n MigrationUser.migrationRequest := by
  induction n with
  | zero => rfl
  | succ k ih =>
    show (MigrationUser.runN self respond k).2 ++ [MigrationUser.migrationRequest] =
      List.replicate (k + 1) MigrationUser.migrationRequest
    rw [ih, List.replicate_succ']

/-- Claim C5: run_migration never inspects, validates or branches on
the response: its result is identical for any two responding servers,
and when the client raises a failure it propagates verbatim, there
being no handler in the task body. -/
theorem run_migration_response_independent :
    (∀ (self : MigrationUser) (f g : HttpRequest → HttpResponse),
        MigrationUser.run_migration self f = MigrationUser.run_migration self g) ∧
    (∀ (self : MigrationUser) (e : NetworkFailure),
        MigrationUser.run_migration_exc self (fun _ => Except.error e) =
          Except.error e) :=
  ⟨fun _ _ _ => rfl, fun _ _ => rfl⟩

/-- Claim C6: the configured wait time, between(1, 2), maps every
uniform sample u in [0, 1] into the interval [1, 2], and conversely
every duration in [1, 2] is attained by some sample in [0, 1]: the wait
is a uniformly random duration in [1, 2], never outside that range. -/
theorem wait_time_uniform_range (u : ℚ) (h0 : 0 ≤ u) (h1 : u ≤ 1) :
    (1 ≤ MigrationUser.wait_time u ∧ MigrationUser.wait_time u ≤ 2) ∧
    ∀ t : ℚ, 1 ≤ t → t ≤ 2 →
      ∃ v : ℚ, (0 ≤ v ∧ v ≤ 1) ∧ MigrationUser.wait_time v = t := by
  refine ⟨⟨?_, ?_⟩, fun t ht1 ht2 => ⟨t - 1, ⟨by linarith, by linarith⟩, ?_⟩⟩ <;>
    simp only [MigrationUser.wait_time, between] <;> ring_nf <;> linarith

/-- Concrete instance of the wait-time bounds at the sample u = 1/2. -/
theorem wait_time_uniform_range_witness :
    1 ≤ MigrationUser.wait_time (1 / 2) ∧ MigrationUser.wait_time (1 / 2) ≤ 2 :=
  (wait_time_uniform_range (1 / 2) (by norm_num) (by norm_num)).1

/-- Claim C7: every invocation of run_migration issues exactly one
request: the trace of requests of one invocation has length one. -/
theorem run_migration_single_request (self : MigrationUser)
    (respond : HttpRequest → HttpResponse) :
    ((MigrationUser.run_migration self respond).2).length = 1 :=
  rfl

/-- Claim C8: run_migration mutates no state: the user state after an
invocation equals the state before, and consequently a later invocation
behaves exactly as a first one, no state surviving between
invocations. -/
theorem run_migration_state_frame (self : MigrationUser)
    (respond : HttpRequest → HttpResponse) :
    (MigrationUser.run_migration self respond).1 = self ∧
    ∀ g : HttpRequest → HttpResponse,
      MigrationUser.run_migration (MigrationUser.run_migration self respond).1 g =
        MigrationUser.run_migration self g :=
  ⟨rfl, fun _ => rfl⟩

/-- Claim C9: parsing the serialized request body of any invocation
with a standard JSON parser yields exactly the four-key mapping of the
payload: input to CSV, output to CSV, csv_source_file_name to
sample.csv, csv_destination_file_name to destination_file.csv. -/
theorem run_migration_body_roundtrip (self : MigrationUser)
    (respond : HttpRequest → HttpResponse) :
    ((MigrationUser.run_migration self respond).2.map fun r => json.loads r.body) =
      [some [("input", "CSV"), ("output", "CSV"),
             ("csv_source_file_name", "sample.csv"),
             ("csv_destination_file_name", "destination_file.csv")]] :=
  rfl

/-- Claim C10: in the serialized body of every invocation the four keys
appear in the fixed insertion order input, output,
csv_source_file_name, csv_destination_file_name, and any two
invocations produce bodies with identical bytes, hence identical key
order. -/
theorem run_migration_key_order :
    (∀ (self : MigrationUser) (respond : HttpRequest → HttpResponse),
        ((MigrationUser.run_migration self respond).2.map fun r =>
            (json.loads r.body).map (List.map Prod.fst)) =
          [some ["input", "output", "csv_source_file_name",
                 "csv_destination_file_name"]]) ∧
    (∀ (s1 s2 : MigrationUser) (f g : HttpRequest → HttpResponse),
        (MigrationUser.run_migration s1 f).2.map HttpRequest.body =
          (MigrationUser.run_migration s2 g).2.map HttpRequest.body) :=
  ⟨fun _ _ => rfl, fun _ _ _ _ => rfl⟩
